import Mathlib

set_option autoImplicit false

/-!
Shallow embedding of the media pipeline of `src/bot.py`: the size constants,
the per-user processing guard, the bounded streaming download, the delivery
planner `send_video_smart` with its compression and splitting helpers, the
clip samplers, and the URL extractor.  External subprocesses (ffmpeg /
ffprobe) and the network are abstracted as explicit oracle parameters; each
function below mirrors the control flow of the corresponding Python
function, with byte sizes as `Nat` and probed durations as `ℚ`.
-/

namespace Bot

/-- `TELEGRAM_VIDEO_LIMIT = 50 * 1024 * 1024` (bot.py line 22): the ceiling
under which a file is sent as a playable inline video. -/
def TELEGRAM_VIDEO_LIMIT : Nat := 50 * 1024 * 1024

/-- `TELEGRAM_DOCUMENT_LIMIT = 2000 * 1024 * 1024` (bot.py line 23): the
ceiling of the generic document-transfer path. -/
def TELEGRAM_DOCUMENT_LIMIT : Nat := 2000 * 1024 * 1024

/-! ### Per-user processing guard (bot.py 38-52)

The `user_processing` dict is modelled as a function `Nat → Option Bool`
(key present with a value, or absent), which supports exactly the three
operations the source uses: `get` with a default, item assignment, and
`del`. -/

/-- `is_user_processing` (bot.py 42-44): `user_processing.get(user_id, False)`. -/
def is_user_processing (m : Nat → Option Bool) (user_id : Nat) : Bool :=
  (m user_id).getD false

/-- `set_user_processing` (bot.py 46-52): store the status under the key,
then delete the key entirely when the status is false. -/
def set_user_processing (m : Nat → Option Bool) (user_id : Nat) (status : Bool) :
    Nat → Option Bool :=
  let m1 : Nat → Option Bool := fun a => if a = user_id then some status else m a
  if status then m1 else fun a => if a = user_id then none else m1 a

/-- The check-then-set acquisition sequence every handler performs
(bot.py 740-758 and 819-830): refuse when the flag is already set,
otherwise set it.  Returns the acquisition result and the new map. -/
def tryAcquire (m : Nat → Option Bool) (user_id : Nat) :
    Bool × (Nat → Option Bool) :=
  if is_user_processing m user_id then (false, m)
  else (true, set_user_processing m user_id true)

/-- Releasing the guard: `set_user_processing(user_id, False)` in the
handlers' `finally` blocks (bot.py 805, 937). -/
def release (m : Nat → Option Bool) (user_id : Nat) : Nat → Option Bool :=
  set_user_processing m user_id false

/-! ### Bounded streaming download (bot.py 224-257) -/

/-- One event of the response body stream as seen by the write loop of
`download_file_async`: a chunk of bytes handed over by
`iter_chunked(8192)`, or an exception raised by the underlying read or
write. -/
inductive StreamEvent where
  | chunk (size : Nat)
  | ioError
  deriving DecidableEq, Repr

/-- The streaming write loop of `download_file_async` (bot.py 243-250):
write the chunk, bump the running counter and, when the counter exceeds the
budget, delete the file and return `None`.  An exception propagates to the
outer handler, which returns `None` without deleting the partial file
(bot.py 255-257).  The result is the pair
(value returned by the function, bytes of the destination file left on
disk: `none` when no file remains). -/
def fetchRun (maxBytes : Nat) : List StreamEvent → Nat → Option Nat × Option Nat
  | [], written => (some written, some written)
  | StreamEvent.chunk c :: rest, written =>
      let w := written + c
      if maxBytes < w then (none, none) else fetchRun maxBytes rest w
  | StreamEvent.ioError :: _, written => (none, some written)

/-- `download_file_async` (bot.py 224-257) over an abstract HTTP response:
the status code and the stream of body events.  A non-200 status fails
before the destination file is created. -/
def download_file_async (status : Nat) (events : List StreamEvent)
    (max_size_mb : Nat) : Option Nat × Option Nat :=
  if status = 200 then fetchRun (max_size_mb * 1024 * 1024) events 0
  else (none, none)

/-! ### Compression, splitting and the delivery planner (bot.py 94-192, 591-706) -/

/-- Outcome of one external ffmpeg invocation as observed by the caller:
the exit status (`exitOk` iff `returncode == 0`), whether the output path
exists afterwards, and the output file's size in bytes. -/
structure EncRun where
  exitOk : Bool
  outExists : Bool
  outSize : Nat
  deriving DecidableEq, Repr

/-- The target bitrate computed by `compress_video` (bot.py 107):
`int((target_size_mb * 8192) / duration * 0.9)` in kbps.  All operands are
positive, so Python's toward-zero `int` is the floor. -/
def target_bitrate (target_size_mb duration : ℚ) : ℤ :=
  Int.floor (target_size_mb * 8192 / duration * (9 / 10))

/-- `compress_video` (bot.py 94-141): refuse when the probed duration is 0
(the encoder is not invoked and no output file appears); otherwise run
ffmpeg and report success iff it exited 0 and the output file exists. -/
def compress_video (duration : ℚ) (enc : EncRun) : Bool :=
  if duration = 0 then false
  else enc.exitOk && enc.outExists

/-- `num_parts = int(duration / chunk_duration) + 1` (bot.py 153), with the
default `chunk_duration = 600` seconds.  Durations are nonnegative, so
Python's toward-zero `int` is the floor. -/
def split_num_parts (duration chunk_duration : ℚ) : Nat :=
  (Int.floor (duration / chunk_duration)).toNat + 1

/-- The per-part loop of `split_video` (bot.py 157-188): part `i` is kept
when its ffmpeg invocation exited 0, the chunk file exists and its size is
positive (an empty chunk is removed).  Returns the kept chunk sizes in part
order. -/
def split_parts (runs : Nat → EncRun) : Nat → Nat → List Nat
  | _, 0 => []
  | i, remaining + 1 =>
      let r := runs i
      if r.exitOk = true ∧ r.outExists = true ∧ 0 < r.outSize then
        r.outSize :: split_parts runs (i + 1) remaining
      else
        split_parts runs (i + 1) remaining

/-- `split_video` (bot.py 143-192): a zero probed duration yields no chunks
at all; otherwise ffmpeg is invoked once per part, `runs i` being the
observed outcome of the invocation for part `i`. -/
def split_video (duration : ℚ) (runs : Nat → EncRun) : List Nat :=
  if duration = 0 then []
  else split_parts runs 0 (split_num_parts duration 600)

/-- One transport action performed by `send_video_smart`, in order:
a `reply_video` of a file of the given size, a `reply_document` of a file
of the given size, a call into `compress_video`, or a call into
`split_video`. -/
inductive SendAction where
  | sendVideo (size : Nat)
  | sendDocument (size : Nat)
  | compressAttempt
  | splitAttempt
  deriving DecidableEq, Repr

/-- Result of `send_video_smart`: its return value, the transport and
subprocess actions in order, and the size of a compressed intermediate file
still on disk after the call when one remains. -/
structure SendOutcome where
  ok : Bool
  actions : List SendAction
  leftoverCompressed : Option Nat
  deriving DecidableEq, Repr

/-- `send_video_smart` (bot.py 591-706).  Oracles: `duration` is the probed
duration consumed by `compress_video` and `split_video`, `enc` the observed
compression ffmpeg run, `splitRuns` the observed per-part split runs.  The
transport calls themselves are assumed not to raise.  Branches:
size under `TELEGRAM_VIDEO_LIMIT` sends the file as a video directly;
size under `TELEGRAM_DOCUMENT_LIMIT` attempts one compression, sends the
compressed file when it fits under the video limit (bot.py 633-643,
removing it after the send), removes it when it is still too large
(bot.py 644-646), and in either failure case sends the original as a
document (bot.py 648-658) — a compression failure with a leftover encoder
output file removes nothing; larger files are split and each kept chunk is
sent as a video or document depending on its own size (bot.py 660-701). -/
def send_video_smart (file_size : Nat) (duration : ℚ) (enc : EncRun)
    (splitRuns : Nat → EncRun) : SendOutcome :=
  if file_size < TELEGRAM_VIDEO_LIMIT then
    { ok := true
      actions := [SendAction.sendVideo file_size]
      leftoverCompressed := none }
  else if file_size < TELEGRAM_DOCUMENT_LIMIT then
    if compress_video duration enc then
      if enc.outSize < TELEGRAM_VIDEO_LIMIT then
        { ok := true
          actions := [SendAction.compressAttempt, SendAction.sendVideo enc.outSize]
          leftoverCompressed := none }
      else
        { ok := true
          actions := [SendAction.compressAttempt, SendAction.sendDocument file_size]
          leftoverCompressed := none }
    else
      { ok := true
        actions := [SendAction.compressAttempt, SendAction.sendDocument file_size]
        leftoverCompressed :=
          if duration ≠ 0 ∧ enc.outExists = true then some enc.outSize else none }
  else
    let chunks := split_video duration splitRuns
    if chunks = [] then
      { ok := false
        actions := [SendAction.splitAttempt]
        leftoverCompressed := none }
    else
      { ok := true
        actions := SendAction.splitAttempt ::
          chunks.map (fun c =>
            if c < TELEGRAM_VIDEO_LIMIT then SendAction.sendVideo c
            else SendAction.sendDocument c)
        leftoverCompressed := none }

/-! ### Clip samplers (bot.py 259-438 and 538-589) -/

/-- The label attached to a clip position. -/
inductive ClipLabel where
  | beginning
  | middle
  | ending
  deriving DecidableEq, Repr

/-- Outcome of one per-clip ffmpeg invocation plus its ffprobe verification
(bot.py 360-431): whether the invocation hit its wall-clock timeout, its
exit status, the output file's existence and size, and whether the
verification probe exited 0. -/
structure ClipRun where
  timedOut : Bool
  exitOk : Bool
  outExists : Bool
  outSize : Nat
  verifyOk : Bool
  deriving DecidableEq, Repr

/-- The clip positions computed by `generate_clips` (bot.py 291-308),
already truncated to `num_clips` entries. -/
def clip_positions (duration clip_duration : ℚ) (num_clips : Nat) :
    List (ℚ × ClipLabel) :=
  (if 30 < duration then
    [(max 3 (duration * (5 / 100)), ClipLabel.beginning),
     (duration * (45 / 100), ClipLabel.middle),
     (max (duration * (9 / 10)) (duration - clip_duration - 5), ClipLabel.ending)]
  else
    [(5, ClipLabel.beginning),
     (max 10 (duration * (1 / 2)), ClipLabel.middle),
     (max 15 (duration - clip_duration - 3), ClipLabel.ending)]).take num_clips

/-- The per-position loop of `generate_clips` (bot.py 312-431): a position
whose clip would pass the end of the video is skipped (bot.py 316-318);
otherwise the clip is kept exactly when its ffmpeg run did not time out,
exited 0, produced an output file of more than `50 * 1024` bytes and passed
the verification probe (a clip failing verification is popped again,
bot.py 413-417). -/
def clips_loop (runs : Nat → ClipRun) (duration clip_duration : ℚ) :
    List (ℚ × ClipLabel) → Nat → List (ℚ × ClipLabel)
  | [], _ => []
  | (start, label) :: rest, i =>
      if duration < start + clip_duration then
        clips_loop runs duration clip_duration rest (i + 1)
      else
        let r := runs i
        if r.timedOut = false ∧ r.exitOk = true ∧ r.outExists = true ∧
            50 * 1024 < r.outSize ∧ r.verifyOk = true then
          (start, label) :: clips_loop runs duration clip_duration rest (i + 1)
        else
          clips_loop runs duration clip_duration rest (i + 1)

/-- `generate_clips` (bot.py 259-438): an unprobeable (zero) duration or a
duration under `clip_duration * num_clips + 10` yields no clips at all;
otherwise the positions are processed in order.  The file-size dependent
branches of the source select only encoder arguments and the subprocess
timeout, both absorbed into the `runs` oracle. -/
def generate_clips (runs : Nat → ClipRun) (duration : ℚ) (num_clips : Nat)
    (clip_duration : ℚ) : List (ℚ × ClipLabel) :=
  if duration = 0 then []
  else if duration < clip_duration * (num_clips : ℚ) + 10 then []
  else clips_loop runs duration clip_duration
    (clip_positions duration clip_duration num_clips) 0

/-- The fixed fractional time positions of `generate_clips_fallback`
(bot.py 549-553). -/
def fallback_positions (duration : ℚ) : List (ℚ × ClipLabel) :=
  [(duration * (1 / 10), ClipLabel.beginning),
   (duration * (1 / 2), ClipLabel.middle),
   (duration * (9 / 10), ClipLabel.ending)]

/-- The per-position loop of `generate_clips_fallback` (bot.py 549-584):
the actual trim starts `2.5` seconds before the nominal position
(bot.py 560), and a clip is kept when ffmpeg exited 0, the output exists
and is larger than `10240` bytes — there is no duration-range check and no
verification probe. -/
def fallback_loop (runs : Nat → ClipRun) :
    List (ℚ × ClipLabel) → Nat → List (ℚ × ClipLabel)
  | [], _ => []
  | (timePos, label) :: rest, i =>
      let r := runs i
      if r.exitOk = true ∧ r.outExists = true ∧ 10240 < r.outSize then
        (timePos - 5 / 2, label) :: fallback_loop runs rest (i + 1)
      else
        fallback_loop runs rest (i + 1)

/-- `generate_clips_fallback` (bot.py 538-589): only a zero probed duration
yields no clips; there is no minimum-duration check.  `clip_duration` is
passed to ffmpeg as the trim length and does not influence which clips are
kept. -/
def generate_clips_fallback (runs : Nat → ClipRun) (duration : ℚ)
    (num_clips : Nat) (clip_duration : ℚ) : List (ℚ × ClipLabel) :=
  if duration = 0 then []
  else fallback_loop runs ((fallback_positions duration).take num_clips) 0

/-- The clip-sampling entry path of `handle_video_file` for uploads of at
most 50MB (bot.py 874-887): run `generate_clips` and, when it yields
nothing, retry with `generate_clips_fallback`. -/
def handle_video_file_clips (runs fbRuns : Nat → ClipRun) (duration : ℚ)
    (num_clips : Nat) (clip_duration : ℚ) : List (ℚ × ClipLabel) :=
  let clips := generate_clips runs duration num_clips clip_duration
  if clips = [] then generate_clips_fallback fbRuns duration num_clips clip_duration
  else clips

/-! ### URL extraction (bot.py 194-222) -/

/-- The first yt-dlp format alternative of `extract_video_url` (bot.py 197). -/
def strat1 : String := "bestvideo[ext=mp4]+bestaudio[ext=m4a]"

/-- The second yt-dlp format alternative of `extract_video_url` (bot.py 197). -/
def strat2 : String := "best[ext=mp4]"

/-- The third yt-dlp format alternative of `extract_video_url` (bot.py 197). -/
def strat3 : String := "best"

/-- The ordered extraction strategies of `extract_video_url` (bot.py 197):
the `/`-separated alternatives of the format selector string
`bestvideo[ext=mp4]+bestaudio[ext=m4a]/best[ext=mp4]/best`, read as a
list. -/
def format_strategies : List String := [strat1, strat2, strat3]

/-- Modelled from the spec: the in-order trial of extraction strategies that
the external extractor (yt-dlp) performs on a `/`-separated format
selector — the trial itself is not in `src/`, only the selector string and
the surrounding call are.  `avail` says what stream, if any, each strategy
yields; the first strategy yielding a stream wins and one yielding nothing
is skipped as a soft failure. -/
def select_in_order (avail : String → Option String) :
    List String → Option String
  | [] => none
  | s :: rest =>
      match avail s with
      | some u => some u
      | none => select_in_order avail rest

/-- The default title used by `extract_video_url` (bot.py 215). -/
def default_title : String := "video"

/-- The resolution result of `extract_video_url`: a stream URL and a
title. -/
structure Extracted where
  url : String
  title : String
  deriving DecidableEq, Repr

/-- `extract_video_url` (bot.py 194-222): one call into the external
extractor over the ordered `format_strategies`.  `raised` records whether
the extractor raised (network failure, unsupported page, or no usable
format) — any exception is caught and turned into `None` (bot.py 220-222);
otherwise the winning strategy's stream URL is returned together with the
title, defaulting to `default_title`. -/
def extract_video_url (raised : Bool) (avail : String → Option String)
    (title : Option String) : Option Extracted :=
  if raised then none
  else
    match select_in_order avail format_strategies with
    | none => none
    | some u => some { url := u, title := Option.getD title default_title }

/-! ## Theorems about the bounded download -/

/-- Helper: once some prefix of the chunk stream pushes the running counter
past the budget, the write loop of `download_file_async` deletes the file
and returns `none`. -/
theorem fetchRun_overbudget (maxBytes : Nat) (chunks : List Nat) (acc k : Nat)
    (hacc : acc ≤ maxBytes) (hex : maxBytes < acc + (chunks.take k).sum) :
    fetchRun maxBytes (chunks.map StreamEvent.chunk) acc = (none, none) := by
  induction chunks generalizing acc k with
  | nil =>
      simp only [List.take_nil, List.sum_nil, Nat.add_zero] at hex
      omega
  | cons c cs ih =>
      simp only [List.map_cons, fetchRun]
      by_cases hb : maxBytes < acc + c
      · rw [if_pos hb]
      · rw [if_neg hb]
        cases k with
        | zero =>
            simp only [List.take_zero, List.sum_nil, Nat.add_zero] at hex
            omega
        | succ j =>
            simp only [List.take_succ_cons, List.sum_cons] at hex
            exact ih (acc + c) j (by omega) (by omega)

/-- Claim C2: whenever the running byte counter exceeds the byte budget at
some point of the stream (after `k` chunks), `download_file_async` fails
and the partially written file is deleted before the call returns — zero
bytes of partial artifact remain on disk, wherever in the stream the
excess was detected. -/
theorem C2_overbudget_cleanup (status max_size_mb k : Nat) (chunks : List Nat)
    (hex : max_size_mb * 1024 * 1024 < (chunks.take k).sum) :
    download_file_async status (chunks.map StreamEvent.chunk) max_size_mb =
      (none, none) := by
  unfold download_file_async
  by_cases hs : status = 200
  · rw [if_pos hs]
    exact fetchRun_overbudget _ chunks 0 k (Nat.zero_le _) (by omega)
  · rw [if_neg hs]

/-- Witness for C2: a single 3GB chunk against the default 2000MB budget. -/
theorem C2_overbudget_cleanup_witness :
    2000 * 1024 * 1024 < ((([3000000000] : List Nat)).take 1).sum ∧
    download_file_async 200 (([3000000000] : List Nat).map StreamEvent.chunk) 2000 =
      (none, none) :=
  ⟨by norm_num, C2_overbudget_cleanup 200 2000 1 [3000000000] (by norm_num)⟩

/-- Helper: a run of the write loop that returns a measured size stayed
within the budget and wrote exactly the stream's bytes. -/
theorem fetchRun_success_bound (maxBytes : Nat) (chunks : List Nat) (acc n : Nat)
    (fs : Option Nat) (hacc : acc ≤ maxBytes)
    (h : fetchRun maxBytes (chunks.map StreamEvent.chunk) acc = (some n, fs)) :
    n = acc + chunks.sum ∧ n ≤ maxBytes ∧ fs = some n := by
  induction chunks generalizing acc with
  | nil =>
      simp only [List.map_nil, fetchRun, Prod.mk.injEq, Option.some.injEq] at h
      obtain ⟨h1, h2⟩ := h
      subst h1
      simp [← h2, hacc]
  | cons c cs ih =>
      simp only [List.map_cons, fetchRun] at h
      by_cases hb : maxBytes < acc + c
      · rw [if_pos hb] at h
        exact absurd h (by simp)
      · rw [if_neg hb] at h
        obtain ⟨h1, h2, h3⟩ := ih (acc + c) (by omega) h
        refine ⟨by simp only [List.sum_cons]; omega, h2, h3⟩

/-- Claim C10: every successful call of `download_file_async` wrote at most
the byte budget to the returned file — the per-chunk check runs after every
chunk, the last included, so a success never exceeds the ceiling; the
measured size is the full stream's byte count. -/
theorem C10_success_within_budget (status max_size_mb n : Nat) (chunks : List Nat)
    (fs : Option Nat)
    (h : download_file_async status (chunks.map StreamEvent.chunk) max_size_mb =
      (some n, fs)) :
    n ≤ max_size_mb * 1024 * 1024 ∧ n = chunks.sum ∧ fs = some n := by
  unfold download_file_async at h
  by_cases hs : status = 200
  · rw [if_pos hs] at h
    obtain ⟨h1, h2, h3⟩ := fetchRun_success_bound _ chunks 0 n fs (Nat.zero_le _) h
    exact ⟨h2, by omega, h3⟩
  · rw [if_neg hs] at h
    exact absurd h (by simp)

/-- Witness for C10: a two-chunk stream of 12 bytes under a 2000MB budget. -/
theorem C10_success_within_budget_witness :
    download_file_async 200 (([5, 7] : List Nat).map StreamEvent.chunk) 2000 =
      (some 12, some 12) ∧ 12 ≤ 2000 * 1024 * 1024 :=
  ⟨rfl, (C10_success_within_budget 200 2000 12 [5, 7] (some 12) rfl).1⟩

/-- Counterexample to claim C3: a 100-byte chunk is written, then an I/O
error is raised mid-stream; `download_file_async` fails (returns `none`)
but the 100-byte partial file remains on disk — the `except` handler
(bot.py 255-257) deletes nothing. -/
theorem C3_counterexample :
    download_file_async 200 [StreamEvent.chunk 100, StreamEvent.ioError] 2000 =
      (none, some 100) ∧ (some 100 : Option Nat) ≠ none :=
  ⟨rfl, by simp⟩

/-- Helper: an I/O error after an in-budget prefix of chunks makes the
write loop fail with the partial file left at exactly the bytes written. -/
theorem fetchRun_ioError_leaves_file (maxBytes : Nat) (chunks : List Nat)
    (rest : List StreamEvent) (acc : Nat) (h : acc + chunks.sum ≤ maxBytes) :
    fetchRun maxBytes (chunks.map StreamEvent.chunk ++ StreamEvent.ioError :: rest) acc =
      (none, some (acc + chunks.sum)) := by
  induction chunks generalizing acc with
  | nil => simp [fetchRun]
  | cons c cs ih =>
      simp only [List.map_cons, List.cons_append, List.append_eq, fetchRun]
      rw [if_neg (by simp only [List.sum_cons] at h; omega)]
      rw [ih (acc + c) (by simp only [List.sum_cons] at h ⊢; omega)]
      simp only [List.sum_cons, Prod.mk.injEq, Option.some.injEq, true_and]
      omega

/-- Claim C3 (amended): an I/O error during streaming, after the
destination file was opened and an in-budget prefix written, makes the call
fail — but the partial file is NOT deleted before the call returns: exactly
the bytes already written remain on disk (the file is only removed by later
temp-directory cleanup). -/
theorem C3_amended_error_leaves_partial_file (max_size_mb : Nat) (chunks : List Nat)
    (rest : List StreamEvent) (h : chunks.sum ≤ max_size_mb * 1024 * 1024) :
    download_file_async 200 (chunks.map StreamEvent.chunk ++ StreamEvent.ioError :: rest)
      max_size_mb = (none, some chunks.sum) := by
  unfold download_file_async
  rw [if_pos rfl]
  simpa using fetchRun_ioError_leaves_file _ chunks rest 0 (by omega)

/-- Witness for the amended C3: 100 bytes written, then an I/O error. -/
theorem C3_amended_error_leaves_partial_file_witness :
    ([100] : List Nat).sum ≤ 2000 * 1024 * 1024 ∧
    download_file_async 200 (([100] : List Nat).map StreamEvent.chunk ++
      StreamEvent.ioError :: []) 2000 = (none, some ([100] : List Nat).sum) :=
  ⟨by norm_num, C3_amended_error_leaves_partial_file 2000 [100] [] (by norm_num)⟩

/-! ## Theorems about the processing guard -/

/-- Claim C9: when the guard is free for a requester, `tryAcquire` returns
true; a second `tryAcquire` without an intervening `release` returns false;
and after a `release` a further `tryAcquire` returns true again. -/
theorem C9_guard_acquire_release (m : Nat → Option Bool) (uid : Nat)
    (h : is_user_processing m uid = false) :
    (tryAcquire m uid).1 = true ∧
    (tryAcquire (tryAcquire m uid).2 uid).1 = false ∧
    (tryAcquire (release (tryAcquire m uid).2 uid) uid).1 = true := by
  have hg : (m uid).getD false = false := h
  simp [tryAcquire, release, set_user_processing, is_user_processing, hg]

/-- Witness for C9 on the empty map and requester 7. -/
theorem C9_guard_acquire_release_witness :
    is_user_processing (fun _ => none) 7 = false ∧
    ((tryAcquire (fun _ => none) 7).1 = true ∧
     (tryAcquire (tryAcquire (fun _ => none) 7).2 7).1 = false ∧
     (tryAcquire (release (tryAcquire (fun _ => none) 7).2 7) 7).1 = true) :=
  ⟨rfl, C9_guard_acquire_release (fun _ => none) 7 rfl⟩

/-! ## Theorems about the delivery planner -/

/-- Claim C6: an artifact strictly under `TELEGRAM_VIDEO_LIMIT` is sent
directly as a playable video; neither the compressor nor the splitter is
ever invoked for it. -/
theorem C6_small_sent_direct (file_size : Nat) (duration : ℚ) (enc : EncRun)
    (splitRuns : Nat → EncRun) (h : file_size < TELEGRAM_VIDEO_LIMIT) :
    send_video_smart file_size duration enc splitRuns =
      { ok := true
        actions := [SendAction.sendVideo file_size]
        leftoverCompressed := none } ∧
    SendAction.compressAttempt ∉ (send_video_smart file_size duration enc splitRuns).actions ∧
    SendAction.splitAttempt ∉ (send_video_smart file_size duration enc splitRuns).actions := by
  unfold send_video_smart
  rw [if_pos h]
  refine ⟨rfl, ?_, ?_⟩ <;> simp

/-- Witness for C6 at a 1000-byte artifact. -/
theorem C6_small_sent_direct_witness :
    send_video_smart 1000 0 ⟨false, false, 0⟩ (fun _ => ⟨false, false, 0⟩) =
      { ok := true
        actions := [SendAction.sendVideo 1000]
        leftoverCompressed := none } ∧
    SendAction.compressAttempt ∉
      (send_video_smart 1000 0 ⟨false, false, 0⟩ (fun _ => ⟨false, false, 0⟩)).actions ∧
    SendAction.splitAttempt ∉
      (send_video_smart 1000 0 ⟨false, false, 0⟩ (fun _ => ⟨false, false, 0⟩)).actions :=
  C6_small_sent_direct 1000 0 ⟨false, false, 0⟩ (fun _ => ⟨false, false, 0⟩)
    (by norm_num [TELEGRAM_VIDEO_LIMIT])

/-- Counterexample to claim C1: a 50MB artifact (in the compression band)
whose compression run fails (nonzero exit) but leaves a 1000-byte partial
encoder output on disk.  The planner does fall through once to sending the
original as a document, yet the compressed output is NOT discarded — it
remains on disk after the call, against the claim's "the compressed output
is discarded". -/
theorem C1_counterexample :
    compress_video 10 ⟨false, true, 1000⟩ = false ∧
    TELEGRAM_VIDEO_LIMIT < TELEGRAM_DOCUMENT_LIMIT ∧
    (send_video_smart TELEGRAM_VIDEO_LIMIT 10 ⟨false, true, 1000⟩
      (fun _ => ⟨false, false, 0⟩)).actions =
      [SendAction.compressAttempt, SendAction.sendDocument TELEGRAM_VIDEO_LIMIT] ∧
    (send_video_smart TELEGRAM_VIDEO_LIMIT 10 ⟨false, true, 1000⟩
      (fun _ => ⟨false, false, 0⟩)).leftoverCompressed = some 1000 := by
  refine ⟨by norm_num [compress_video], by norm_num [TELEGRAM_VIDEO_LIMIT, TELEGRAM_DOCUMENT_LIMIT], ?_, ?_⟩ <;>
    norm_num [send_video_smart, compress_video, TELEGRAM_VIDEO_LIMIT, TELEGRAM_DOCUMENT_LIMIT]

/-- Claim C1 (amended): for an artifact in the compression band whose
compression fails or whose compressed output is still at least
`TELEGRAM_VIDEO_LIMIT`, the planner performs exactly one compression
attempt and falls through exactly once to sending the original,
uncompressed, as a document; the compressed output is removed whenever the
compression itself reported success — but after a reported failure any
partial encoder output is left on disk. -/
theorem C1_amended_single_fallthrough (file_size : Nat) (duration : ℚ) (enc : EncRun)
    (splitRuns : Nat → EncRun)
    (h1 : TELEGRAM_VIDEO_LIMIT ≤ file_size) (h2 : file_size < TELEGRAM_DOCUMENT_LIMIT)
    (h3 : compress_video duration enc = false ∨ TELEGRAM_VIDEO_LIMIT ≤ enc.outSize) :
    (send_video_smart file_size duration enc splitRuns).actions =
      [SendAction.compressAttempt, SendAction.sendDocument file_size] ∧
    (compress_video duration enc = true →
      (send_video_smart file_size duration enc splitRuns).leftoverCompressed = none) := by
  unfold send_video_smart
  rw [if_neg (Nat.not_lt.mpr h1), if_pos h2]
  by_cases hc : compress_video duration enc = true
  · rw [if_pos hc]
    rcases h3 with h3 | h3
    · rw [hc] at h3
      exact absurd h3 (by simp)
    · rw [if_neg (Nat.not_lt.mpr h3)]
      exact ⟨rfl, fun _ => rfl⟩
  · rw [if_neg hc]
    exact ⟨rfl, fun hcc => absurd hcc hc⟩

/-- Witness for the amended C1: compression succeeds but its 50MB output is
still at the video limit, so the original goes out as a document with no
leftover. -/
theorem C1_amended_single_fallthrough_witness :
    (send_video_smart TELEGRAM_VIDEO_LIMIT 10 ⟨true, true, TELEGRAM_VIDEO_LIMIT⟩
      (fun _ => ⟨false, false, 0⟩)).actions =
      [SendAction.compressAttempt, SendAction.sendDocument TELEGRAM_VIDEO_LIMIT] ∧
    (send_video_smart TELEGRAM_VIDEO_LIMIT 10 ⟨true, true, TELEGRAM_VIDEO_LIMIT⟩
      (fun _ => ⟨false, false, 0⟩)).leftoverCompressed = none := by
  have h := C1_amended_single_fallthrough TELEGRAM_VIDEO_LIMIT 10
    ⟨true, true, TELEGRAM_VIDEO_LIMIT⟩ (fun _ => ⟨false, false, 0⟩) (Nat.le_refl _)
    (by norm_num [TELEGRAM_VIDEO_LIMIT, TELEGRAM_DOCUMENT_LIMIT]) (Or.inr (Nat.le_refl _))
  exact ⟨h.1, h.2 (by norm_num [compress_video])⟩

/-- Counterexample to claim C7: the splitter's chunk count is
`int(duration / 600) + 1`, a function of the probed duration alone.  No
fixed byte ceiling `CHUNK_LIMIT` below `TELEGRAM_DOCUMENT_LIMIT` can make
it `ceil(sizeBytes / CHUNK_LIMIT)`: durations 300s and 1200s give 1 and 3
chunks for one and the same artifact size. -/
theorem C7_counterexample :
    ¬ ∃ CHUNK_LIMIT : Nat, 0 < CHUNK_LIMIT ∧ CHUNK_LIMIT < TELEGRAM_DOCUMENT_LIMIT ∧
      ∀ (sizeBytes : Nat) (duration : ℚ), TELEGRAM_DOCUMENT_LIMIT ≤ sizeBytes →
        duration ≠ 0 →
        split_num_parts duration 600 = (sizeBytes + CHUNK_LIMIT - 1) / CHUNK_LIMIT := by
  rintro ⟨CL, _, _, hall⟩
  have h1 : split_num_parts 300 600 = 1 := by
    have hf : Int.floor ((300 : ℚ) / 600) = 0 := by
      rw [Int.floor_eq_iff] <;> norm_num
    simp only [split_num_parts]
    rw [hf]
    rfl
  have h3 : split_num_parts 1200 600 = 3 := by
    have hf : Int.floor ((1200 : ℚ) / 600) = 2 := by
      rw [Int.floor_eq_iff] <;> norm_num
    simp only [split_num_parts]
    rw [hf]
    rfl
  have e1 := hall TELEGRAM_DOCUMENT_LIMIT 300 (Nat.le_refl _) (by norm_num)
  have e3 := hall TELEGRAM_DOCUMENT_LIMIT 1200 (Nat.le_refl _) (by norm_num)
  rw [h1] at e1
  rw [h3] at e3
  omega

/-- Claim C7 (amended): for an artifact at or above
`TELEGRAM_DOCUMENT_LIMIT` the planner enters the split path, and the chunk
count it computes is `⌊duration / 600⌋ + 1` — the number of 600-second time
slices covering the probed duration (`600 * (n - 1) ≤ duration < 600 * n`);
it depends on the duration, not on `sizeBytes`. -/
theorem C7_amended_split_by_time (file_size : Nat) (duration : ℚ) (enc : EncRun)
    (splitRuns : Nat → EncRun)
    (hsz : TELEGRAM_DOCUMENT_LIMIT ≤ file_size) (hd0 : 0 ≤ duration) :
    (send_video_smart file_size duration enc splitRuns).actions.head? =
      some SendAction.splitAttempt ∧
    600 * ((split_num_parts duration 600 : ℚ) - 1) ≤ duration ∧
    duration < 600 * (split_num_parts duration 600 : ℚ) := by
  have hvd : TELEGRAM_VIDEO_LIMIT < TELEGRAM_DOCUMENT_LIMIT := by
    norm_num [TELEGRAM_VIDEO_LIMIT, TELEGRAM_DOCUMENT_LIMIT]
  have hfl : (0 : ℤ) ≤ Int.floor (duration / 600) := by
    rw [Int.le_floor]
    positivity
  have hQ : (((Int.floor (duration / 600)).toNat : ℕ) : ℚ) =
      ((Int.floor (duration / 600) : ℤ) : ℚ) := by
    exact_mod_cast Int.toNat_of_nonneg hfl
  have hcast : ((split_num_parts duration 600 : ℚ)) =
      (Int.floor (duration / 600) : ℚ) + 1 := by
    simp only [split_num_parts, Nat.cast_add, Nat.cast_one, hQ]
  refine ⟨?_, ?_, ?_⟩
  · unfold send_video_smart
    rw [if_neg (Nat.not_lt.mpr (le_trans (Nat.le_of_lt hvd) hsz)),
      if_neg (Nat.not_lt.mpr hsz)]
    by_cases hce : split_video duration splitRuns = []
    · rw [if_pos hce]
      rfl
    · rw [if_neg hce]
      rfl
  · rw [hcast]
    have hle := Int.floor_le (duration / 600)
    have h600 : (0 : ℚ) < 600 := by norm_num
    rw [le_div_iff₀ h600] at hle
    linarith
  · rw [hcast]
    have hlt := Int.lt_floor_add_one (duration / 600)
    have h600 : (0 : ℚ) < 600 := by norm_num
    rw [div_lt_iff₀ h600] at hlt
    linarith

/-- Witness for the amended C7 at a 2GB artifact with a 1200s duration. -/
theorem C7_amended_split_by_time_witness :
    (send_video_smart TELEGRAM_DOCUMENT_LIMIT 1200 ⟨false, false, 0⟩
      (fun _ => ⟨true, true, 5⟩)).actions.head? = some SendAction.splitAttempt ∧
    600 * ((split_num_parts 1200 600 : ℚ) - 1) ≤ 1200 ∧
    (1200 : ℚ) < 600 * (split_num_parts 1200 600 : ℚ) :=
  C7_amended_split_by_time TELEGRAM_DOCUMENT_LIMIT 1200 ⟨false, false, 0⟩
    (fun _ => ⟨true, true, 5⟩) (Nat.le_refl _) (by norm_num)

/-! ## Theorems about the clip samplers -/

/-- A uniformly successful per-clip encoder run: no timeout, exit 0, a
60000-byte output (above both the 50KB and 10KB floors), verification
passing.  Used by the concrete clip-sampler instances below. -/
def goodClipRun : ClipRun := ⟨false, true, true, 60000, true⟩

/-- Counterexample to claim C4: an 18-second video with 3 clips of 5
seconds requested has duration below the `5 * 3 + 10` minimum, yet the
clip-sampling entry path returns a non-empty clip list — `generate_clips`
returns `[]`, but `handle_video_file` then retries with
`generate_clips_fallback`, which has no minimum-duration check and (with a
succeeding encoder) returns clips. -/
theorem C4_counterexample :
    (18 : ℚ) < 5 * 3 + 10 ∧
    handle_video_file_clips (fun _ => goodClipRun) (fun _ => goodClipRun) 18 3 5 ≠ [] := by
  constructor
  · norm_num
  · norm_num [handle_video_file_clips, generate_clips, generate_clips_fallback,
      fallback_loop, fallback_positions, goodClipRun]
    exact List.cons_ne_nil _ _

/-- Claim C4 (amended): `generate_clips` itself returns the empty list —
never a partial one — whenever the probed duration is below
`clip_duration * num_clips + 10`; the entry point however falls back to
`generate_clips_fallback`, which applies no such check and can return
clips for the same video. -/
theorem C4_amended_standard_sampler_empty (runs : Nat → ClipRun)
    (duration clip_duration : ℚ) (num_clips : Nat)
    (h : duration < clip_duration * (num_clips : ℚ) + 10) :
    generate_clips runs duration num_clips clip_duration = [] := by
  unfold generate_clips
  by_cases h0 : duration = 0
  · rw [if_pos h0]
  · rw [if_neg h0, if_pos h]

/-- Witness for the amended C4: an 18-second video yields no clips from
`generate_clips`. -/
theorem C4_amended_standard_sampler_empty_witness :
    (18 : ℚ) < 5 * ((3 : Nat) : ℚ) + 10 ∧
    generate_clips (fun _ => goodClipRun) 18 3 5 = [] :=
  ⟨by norm_num,
   C4_amended_standard_sampler_empty (fun _ => goodClipRun) 18 5 3 (by norm_num)⟩

/-- Counterexample to claim C5: on a 20-second video,
`generate_clips_fallback` returns an `End` clip starting at
`20 * 0.9 - 2.5 = 15.5` seconds although `15.5 + 5 > 20` — the out-of-range
offset is not dropped and the trim is attempted. -/
theorem C5_counterexample :
    (20 : ℚ) < 31 / 2 + 5 ∧
    ((31 / 2 : ℚ), ClipLabel.ending) ∈
      generate_clips_fallback (fun _ => goodClipRun) 20 3 5 := by
  constructor
  · norm_num
  · norm_num [generate_clips_fallback, fallback_loop, fallback_positions, goodClipRun]

/-- Helper: every clip kept by the loop of `generate_clips` passed the
range check, so its start plus the clip length stays within the source
duration. -/
theorem clips_loop_within_duration (runs : Nat → ClipRun) (duration clip_duration : ℚ)
    (ps : List (ℚ × ClipLabel)) (i : Nat) (start : ℚ) (label : ClipLabel)
    (h : (start, label) ∈ clips_loop runs duration clip_duration ps i) :
    start + clip_duration ≤ duration := by
  induction ps generalizing i with
  | nil => simp [clips_loop] at h
  | cons p rest ih =>
      obtain ⟨a, lb⟩ := p
      simp only [clips_loop] at h
      split at h
      · exact ih (i + 1) h
      · rename_i hge
        split at h
        · rcases List.mem_cons.mp h with heq | hmem
          · rw [Prod.mk.injEq] at heq
            obtain ⟨h1, _⟩ := heq
            subst h1
            exact not_lt.mp hge
          · exact ih (i + 1) hmem
        · exact ih (i + 1) h

/-- Claim C5 (amended): every clip returned by `generate_clips` satisfies
`start + clip_duration ≤ duration` — offsets that would pass the end of
the video are dropped, not clamped; `generate_clips_fallback` performs no
such check and can return out-of-range clips. -/
theorem C5_amended_range_check (runs : Nat → ClipRun) (duration clip_duration : ℚ)
    (num_clips : Nat) (start : ℚ) (label : ClipLabel)
    (h : (start, label) ∈ generate_clips runs duration num_clips clip_duration) :
    start + clip_duration ≤ duration := by
  unfold generate_clips at h
  split at h
  · simp at h
  · split at h
    · simp at h
    · exact clips_loop_within_duration runs duration clip_duration _ 0 start label h

/-- Witness for the amended C5: the `Beginning` clip of a 40-second video
starts at 3s and `3 + 5 ≤ 40`. -/
theorem C5_amended_range_check_witness :
    ((3 : ℚ), ClipLabel.beginning) ∈ generate_clips (fun _ => goodClipRun) 40 3 5 ∧
    (3 : ℚ) + 5 ≤ 40 := by
  have hmem : ((3 : ℚ), ClipLabel.beginning) ∈
      generate_clips (fun _ => goodClipRun) 40 3 5 := by
    norm_num [generate_clips, clips_loop, clip_positions, goodClipRun]
  exact ⟨hmem, C5_amended_range_check (fun _ => goodClipRun) 40 5 3 3
    ClipLabel.beginning hmem⟩

/-! ## Theorems about URL extraction -/

/-- Claim C8: `extract_video_url` resolves over its ordered
`format_strategies` — the first strategy yielding a stream wins, a strategy
yielding nothing is a soft failure and the next one is tried, and the call
returns `none` exactly when the extractor raised or every strategy
failed. -/
theorem C8_strategies_in_order (avail : String → Option String)
    (title : Option String) (u : String) :
    (avail strat1 = some u →
      extract_video_url false avail title =
        some { url := u, title := Option.getD title default_title }) ∧
    (avail strat1 = none → avail strat2 = some u →
      extract_video_url false avail title =
        some { url := u, title := Option.getD title default_title }) ∧
    (avail strat1 = none → avail strat2 = none → avail strat3 = some u →
      extract_video_url false avail title =
        some { url := u, title := Option.getD title default_title }) ∧
    ((∀ s ∈ format_strategies, avail s = none) →
      extract_video_url false avail title = none) ∧
    extract_video_url true avail title = none := by
  refine ⟨?_, ?_, ?_, ?_, rfl⟩
  · intro h1
    simp [extract_video_url, select_in_order, format_strategies, h1]
  · intro h1 h2
    simp [extract_video_url, select_in_order, format_strategies, h1, h2]
  · intro h1 h2 h3
    simp [extract_video_url, select_in_order, format_strategies, h1, h2, h3]
  · intro hall
    have h1 := hall strat1 (by simp [format_strategies])
    have h2 := hall strat2 (by simp [format_strategies])
    have h3 := hall strat3 (by simp [format_strategies])
    simp [extract_video_url, select_in_order, format_strategies, h1, h2, h3]

/-- A sample stream location for the C8 witness. -/
def sample_url : String := "https-stream-location"

/-- Witness for C8: the first strategy yields nothing, the second yields a
stream, and resolution returns the second strategy's stream with the
default title. -/
theorem C8_strategies_in_order_witness :
    extract_video_url false (fun s => if s = strat2 then some sample_url else none)
      none = some { url := sample_url, title := default_title } := by
  have h := (C8_strategies_in_order
    (fun s => if s = strat2 then some sample_url else none) none sample_url).2.1
  exact h (by simp [strat1, strat2]) (by simp)

end Bot
